import Mathlib

/-!
Verification of the swarm_over_cellular relay and video-frame reconstruction
layer. The definitions below are shallow embeddings of the Python sources:

* `src/base_station/connection/drone_comm.py` (`DroneComm`): command sending,
  connect/disconnect lifecycle, and the fixed-frame video stream demultiplexer
  of `receive_video_ffmpeg`.
* `src/raspberry_pi/drone_relay.py` (`DroneRelay`): the command and telemetry
  relay worker loop bodies and the statistics record they mutate.
* `src/pi/communication_bridge.py` (`CommunicationBridge`): the command and
  legacy-video relay loop bodies.
* `src/drone_simulator/headless_drone_simulator_with_video.py`: the legacy
  video datagram encoder of `video_sender`.

Bytes are modelled as `Nat` (values < 256 in practice), byte strings as
`List Nat`, timestamps as `Nat`, and socket sends as emitted `Dgram` values.
Nondeterministic failures of external calls (a `sendto` raising, a bind
failing, a subprocess dying) are modelled as explicit outcome parameters, and
exception control flow is translated into the corresponding branch structure.
-/

namespace Swarm

/-- One UDP datagram handed to `sendto`: payload bytes plus destination. -/
structure Dgram where
  payload : List Nat
  destIp : String
  destPort : Nat
deriving DecidableEq, Repr

/-- UTF-8 encoding of one character, as byte values (standard 1-4 byte form);
models Python `str.encode()` on a single character. -/
def utf8EncodeCharBytes (c : Char) : List Nat :=
  let n := c.toNat
  if n < 0x80 then [n]
  else if n < 0x800 then
    [0xC0 ||| (n >>> 6), 0x80 ||| (n &&& 0x3F)]
  else if n < 0x10000 then
    [0xE0 ||| (n >>> 12), 0x80 ||| ((n >>> 6) &&& 0x3F), 0x80 ||| (n &&& 0x3F)]
  else
    [0xF0 ||| (n >>> 18), 0x80 ||| ((n >>> 12) &&& 0x3F),
     0x80 ||| ((n >>> 6) &&& 0x3F), 0x80 ||| (n &&& 0x3F)]

/-- UTF-8 encoding of a string, as byte values; models Python `s.encode()`. -/
def utf8Bytes (s : String) : List Nat :=
  (s.data.map utf8EncodeCharBytes).flatten

/-! ### Network configuration constants

From `src/base_station/connection/network_config.py`. -/

namespace NetworkConfig

def DRONE_IP : String := "10.0.0.5"

def COMMAND_PORT : Nat := 8889

def TELEMETRY_PORT : Nat := 8888

def VIDEO_PORT : Nat := 8890

end NetworkConfig

/-! ### Relay configuration constants

From `src/raspberry_pi/relay_config.py`. -/

namespace RelayConfig

def BASE_STATION_IP : String := "10.0.0.3"

def BASE_STATION_TELEMETRY_PORT : Nat := 8888

def DRONE_IP : String := "192.168.10.1"

def DRONE_COMMAND_PORT : Nat := 8889

def ALLOWED_BASE_STATIONS : List String := ["10.0.0.3", "10.0.0.5"]

end RelayConfig

/-- The drone command port the Pi bridge forwards to
(`src/pi/communication_bridge.py`, `DRONE_COMMAND_PORT = 8889`). -/
def BRIDGE_DRONE_COMMAND_PORT : Nat := 8889

/-! ### Fixed-frame stream demultiplexer

Embedding of the buffer logic of `DroneComm.receive_video_ffmpeg`
(`src/base_station/connection/drone_comm.py`, lines 151-257). -/

/-- Frame width used by `receive_video_ffmpeg` (`frame_width = 640`). -/
def frame_width : Nat := 640

/-- Frame height used by `receive_video_ffmpeg` (`frame_height = 480`). -/
def frame_height : Nat := 480

/-- Bytes per raw RGB24 frame
(`frame_size = frame_width * frame_height * 3`). -/
def frame_size : Nat := frame_width * frame_height * 3

/-- One pass of the buffer logic of `receive_video_ffmpeg` after a chunk of
data arrives: `buf += data`; if `len(buf) < frame_size` keep accumulating
(no frame published), otherwise slice exactly one frame off the front
(`raw_frame, buf = buf[:frame_size], buf[frame_size:]`). Returns the list of
frames published by this pass (nil or a singleton) and the retained buffer. -/
def processChunk (F : Nat) (buf data : List Nat) : List (List Nat) × List Nat :=
  let buf2 := buf ++ data
  if buf2.length < F then ([], buf2)
  else ([buf2.take F], buf2.drop F)

/-- Result of running the video receive loop: the published frames in order,
the final retained buffer, and the length of the accumulation buffer observed
right after each append (the instrumented observation used to state the
buffer-bound invariant). -/
structure DemuxResult where
  frames : List (List Nat)
  buf : List Nat
  bufLens : List Nat
deriving DecidableEq, Repr

/-- The read loop of `receive_video_ffmpeg`, driven by the byte stream still
available on the decoder pipe. Each iteration reads
`needed = frame_size - len(buf)` bytes (the pipe returns at most that many:
`data = self.ffmpeg_process.stdout.read(needed)`), appends them and slices at
most one frame (`processChunk`). The loop ends when the stream is exhausted
(an empty read); `fuel` bounds the number of iterations and is instantiated
with the stream length, which suffices because every iteration on a nonempty
stream consumes at least one byte. -/
def receiveVideoLoop (F : Nat) : Nat → List Nat → List Nat → DemuxResult
  | 0, _, buf => ⟨[], buf, []⟩
  | fuel + 1, stream, buf =>
    if stream = [] then ⟨[], buf, []⟩
    else
      let data := stream.take (F - buf.length)
      let rest := stream.drop (F - buf.length)
      let step := processChunk F buf data
      let r := receiveVideoLoop F fuel rest step.2
      ⟨step.1 ++ r.frames, r.buf, (buf ++ data).length :: r.bufLens⟩

/-! ### Legacy per-datagram video codec

Encoder from `HeadlessDroneSimulator.video_sender`
(`src/drone_simulator/headless_drone_simulator_with_video.py`, lines
373-381): `packet = prefix + header + data` with
`header = f"{frame_count}:{timestamp}".encode()` and
`prefix = len(header).to_bytes(2, byteorder='big')`. -/

/-- Two-byte big-endian encoding, modelling `n.to_bytes(2, byteorder='big')`
(valid for `n < 65536`, where Python would otherwise raise). -/
def toBytes2BE (n : Nat) : List Nat := [n / 256 % 256, n % 256]

/-- The header bytes `f"{frameNumber}:{timestamp}".encode()` of a legacy video
datagram (the source formats the timestamp from `time.time()`; the claims use
integral timestamps, so it is modelled as `Nat`). -/
def headerBytes (frameNumber timestamp : Nat) : List Nat :=
  utf8Bytes (toString frameNumber ++ ":" ++ toString timestamp)

/-- A legacy video datagram as built by `video_sender`:
2-byte big-endian header length, then the header, then the image bytes. -/
def videoPacket (frameNumber timestamp : Nat) (img : List Nat) : List Nat :=
  let header := headerBytes frameNumber timestamp
  toBytes2BE header.length ++ header ++ img

/-- Split a byte list at the first `:` (byte 58); `none` when no colon occurs.
Helper for the header parse of the legacy decoder. -/
def splitOnColon : List Nat → Option (List Nat × List Nat)
  | [] => none
  | b :: rest =>
    if b = 58 then some ([], rest)
    else
      match splitOnColon rest with
      | some (l, r) => some (b :: l, r)
      | none => none

/-- Whether a byte is an ASCII decimal digit. -/
def isDigitByte (b : Nat) : Bool := 48 ≤ b && b ≤ 57

/-- Parse a nonempty all-digit byte list as a decimal number. -/
def parseDecimal (l : List Nat) : Option Nat :=
  if l = [] then none
  else if l.all isDigitByte then
    some (l.foldl (fun acc b => acc * 10 + (b - 48)) 0)
  else none

/-- Modelled from the spec: the legacy per-datagram video decoder
(`FrameCodec` legacy decode, spec section 4.1). The repository contains only
the encoder (`video_sender`) and a stubbed-out receiver
(`DroneComm.receive_video` is an empty compatibility stub), so the decoder is
modelled from the spec words: read a 2-byte big-endian length `L`, take the
next `L` bytes as a text header `"<frameNumber>:<timestamp>"`, treat the
remainder as image bytes; fail (datagram dropped, `none`, no exception) if
`L` exceeds the remaining datagram length or the header cannot be split on
`:` or parsed. -/
def decodeLegacyVideo (d : List Nat) : Option (Nat × Nat × List Nat) :=
  match d with
  | b0 :: b1 :: rest =>
    let L := b0 * 256 + b1
    if rest.length < L then none
    else
      match splitOnColon (rest.take L) with
      | some (fnBytes, tsBytes) =>
        match parseDecimal fnBytes, parseDecimal tsBytes with
        | some fn, some ts => some (fn, ts, rest.drop L)
        | _, _ => none
      | none => none
  | _ => none

/-! ### DroneComm session state and lifecycle

From `src/base_station/connection/drone_comm.py`. Sockets and the FFmpeg
subprocess are modelled by presence (`Option Unit`): Python sets the
attributes to objects on creation and back to `None` in `disconnect`. -/

/-- The mutable attributes of a `DroneComm` object that the lifecycle and
send paths touch. -/
structure DroneCommState where
  ip : String
  command_port : Nat
  telemetry_port : Nat
  connected : Bool
  running : Bool
  command_socket : Option Unit
  telemetry_socket : Option Unit
  ffmpeg_process : Option Unit
deriving DecidableEq, Repr

/-- A freshly constructed `DroneComm` (`__init__`): default endpoint
configuration, no sockets, not connected. -/
def initDroneComm : DroneCommState :=
  { ip := NetworkConfig.DRONE_IP
    command_port := NetworkConfig.COMMAND_PORT
    telemetry_port := NetworkConfig.TELEMETRY_PORT
    connected := false
    running := false
    command_socket := none
    telemetry_socket := none
    ffmpeg_process := none }

/-- Embedding of `DroneComm.send_command` (lines 301-312). Returns the Python
return value (`some true` / `some false` for `True` / `False`, `none` for the
implicit `None` fall-through when `self.command_socket` is unset) together
with the datagrams emitted. `sendOk` is false when `sendto` raises (the
`except` branch prints and returns `False`). -/
def send_command (st : DroneCommState) (sendOk : Bool) (command : String) :
    Option Bool × List Dgram :=
  if st.connected = false ∧ command ≠ "command" then (some false, [])
  else
    match st.command_socket with
    | some _ =>
      if sendOk then
        (some true, [⟨utf8Bytes command, st.ip, st.command_port⟩])
      else (some false, [])
    | none => (none, [])

/-- Which step of `DroneComm.connect` (lines 45-90) fails, if any:
the command socket creation, the telemetry socket creation, the telemetry
bind, the FFmpeg pipeline setup (`setup_ffmpeg_pipeline` returns `False`),
or the SDK mode-entry command (`send_command("command")` returns `False`). -/
inductive ConnectOutcome
  | ok
  | cmdSocketFail
  | telemetrySocketFail
  | telemetryBindFail
  | ffmpegSetupFail
  | sdkModeFail
deriving DecidableEq, Repr

/-- Embedding of `DroneComm.connect` (lines 45-90). Attribute assignments
happen in source order; an exception jumps to the single `except` handler,
which only emits a status signal and returns `False` — it closes nothing.
The `setup_ffmpeg_pipeline` and SDK-mode failure branches likewise just
return `False`. On full success the SDK-mode and `streamon` commands are
sent and the state becomes connected and running. Returns the new state,
the boolean result, and the emitted datagrams. -/
def connect (outcome : ConnectOutcome) (st : DroneCommState) :
    DroneCommState × Bool × List Dgram :=
  match outcome with
  | .cmdSocketFail => (st, false, [])
  | .telemetrySocketFail => ({st with command_socket := some ()}, false, [])
  | .telemetryBindFail =>
    ({st with command_socket := some (), telemetry_socket := some ()},
     false, [])
  | .ffmpegSetupFail =>
    ({st with command_socket := some (), telemetry_socket := some ()},
     false, [])
  | .sdkModeFail =>
    ({st with
        command_socket := some ()
        telemetry_socket := some ()
        ffmpeg_process := some ()}, false, [])
  | .ok =>
    let st1 := {st with
      command_socket := some ()
      telemetry_socket := some ()
      ffmpeg_process := some ()}
    let sdkSend := send_command st1 true "command"
    let st2 := {st1 with connected := true, running := true}
    let streamSend := send_command st2 true "streamon"
    (st2, true, sdkSend.2 ++ streamSend.2)

/-- How terminating the FFmpeg process goes inside `disconnect`:
`terminate`+`wait` succeed, the wait times out and the process is killed, or
some other exception is raised (caught and logged); in every case the
`finally` clause clears `ffmpeg_process`. -/
inductive TermOutcome
  | ok
  | timeoutThenKill
  | raisesOther
deriving DecidableEq, Repr

/-- Embedding of `DroneComm.disconnect` (lines 259-299): best-effort
`streamoff` (only when currently connected; `send_command` itself absorbs
send errors), clear the `running` and `connected` flags, stop the FFmpeg
process — whether the handle is absent (block skipped) or present with any
`term` outcome (terminate succeeds, times out and the process is killed, or
raises and is logged), the `finally` clause leaves `ffmpeg_process` cleared,
so the state effect is uniformly `ffmpeg_process := none` — then join the
worker threads (no state effect) and close and clear both sockets. The
`term` and `sendOk` parameters are retained to state that the result does
not depend on them. Returns the new state and the datagrams emitted. -/
def disconnect (term : TermOutcome) (sendOk : Bool) (st : DroneCommState) :
    DroneCommState × List Dgram :=
  let streamoffSends :=
    if st.connected then (send_command st sendOk "streamoff").2 else []
  let st1 := {st with running := false, connected := false}
  let st2 := {st1 with ffmpeg_process := none}
  let st3 := {st2 with command_socket := none, telemetry_socket := none}
  (st3, streamoffSends)

/-! ### DroneRelay statistics and relay worker steps

From `src/raspberry_pi/drone_relay.py`. -/

/-- The `DroneRelay.statistics` dictionary (lines 35-43). -/
structure RelayStatistics where
  commands_forwarded : Nat
  telemetry_forwarded : Nat
  video_bytes_forwarded : Nat
  errors : Nat
  start_time : Option Nat
  last_command_time : Option Nat
  last_telemetry_time : Option Nat
deriving DecidableEq, Repr

/-- Statistics as initialized in `DroneRelay.__init__`. -/
def initStatistics : RelayStatistics :=
  { commands_forwarded := 0
    telemetry_forwarded := 0
    video_bytes_forwarded := 0
    errors := 0
    start_time := none
    last_command_time := none
    last_telemetry_time := none }

/-- One iteration of `command_relay_worker` (lines 166-194) after a datagram
`data` is received from source address `src`: if `src` is not in
`ALLOWED_BASE_STATIONS`, log a warning and `continue` (nothing sent, nothing
mutated); otherwise forward `data` to `(DRONE_IP, DRONE_COMMAND_PORT)` and
update `commands_forwarded` and `last_command_time`. `sendOk` false models
`sendto` raising, which jumps to the `except` branch incrementing `errors`
before any statistics update. -/
def commandRelayStep (src : String) (data : List Nat) (now : Nat)
    (sendOk : Bool) (s : RelayStatistics) : RelayStatistics × List Dgram :=
  if src ∈ RelayConfig.ALLOWED_BASE_STATIONS then
    if sendOk then
      ({s with
          commands_forwarded := s.commands_forwarded + 1
          last_command_time := some now},
       [⟨data, RelayConfig.DRONE_IP, RelayConfig.DRONE_COMMAND_PORT⟩])
    else ({s with errors := s.errors + 1}, [])
  else (s, [])

/-- One iteration of `telemetry_relay_worker` (lines 217-243) after a
datagram `data` is received: forward it to
`(BASE_STATION_IP, BASE_STATION_TELEMETRY_PORT)` and update
`telemetry_forwarded` and `last_telemetry_time`; a raising `sendto`
increments `errors` instead. -/
def telemetryRelayStep (data : List Nat) (now : Nat) (sendOk : Bool)
    (s : RelayStatistics) : RelayStatistics × List Dgram :=
  if sendOk then
    ({s with
        telemetry_forwarded := s.telemetry_forwarded + 1
        last_telemetry_time := some now},
     [⟨data, RelayConfig.BASE_STATION_IP,
       RelayConfig.BASE_STATION_TELEMETRY_PORT⟩])
  else ({s with errors := s.errors + 1}, [])

/-- The statistics-mutating operations of `DroneRelay`: a command-relay
iteration, a telemetry-relay iteration, an error in the video relay worker
(`statistics['errors'] += 1`), a heartbeat tick (reads a snapshot, mutates
nothing), a statistics report (`log_statistics`, read-only), system start
(`start` sets `start_time`), and shutdown (`stop`, which only logs). -/
inductive RelayEvent
  | commandRecv (src : String) (data : List Nat) (now : Nat) (sendOk : Bool)
  | telemetryRecv (data : List Nat) (now : Nat) (sendOk : Bool)
  | videoRelayError
  | heartbeatTick
  | statisticsReport
  | startRelay (now : Nat)
  | stopRelay

/-- Effect of each `DroneRelay` operation on the statistics record, read off
the corresponding source lines. -/
def applyEvent (s : RelayStatistics) : RelayEvent → RelayStatistics
  | .commandRecv src data now sendOk => (commandRelayStep src data now sendOk s).1
  | .telemetryRecv data now sendOk => (telemetryRelayStep data now sendOk s).1
  | .videoRelayError => {s with errors := s.errors + 1}
  | .heartbeatTick => s
  | .statisticsReport => s
  | .startRelay now => {s with start_time := some now}
  | .stopRelay => s

/-- Statistics after a sequence of relay operations. -/
def applyEvents (s : RelayStatistics) (es : List RelayEvent) : RelayStatistics :=
  es.foldl applyEvent s

/-- Pointwise order on the four statistics counters: every counter of `a` is
at most the corresponding counter of `b`. -/
def countersLE (a b : RelayStatistics) : Prop :=
  a.commands_forwarded ≤ b.commands_forwarded ∧
  a.telemetry_forwarded ≤ b.telemetry_forwarded ∧
  a.video_bytes_forwarded ≤ b.video_bytes_forwarded ∧
  a.errors ≤ b.errors

instance (a b : RelayStatistics) : Decidable (countersLE a b) := by
  unfold countersLE
  infer_instance

/-! ### CommunicationBridge relay steps

From `src/pi/communication_bridge.py`. -/

/-- The `CommunicationBridge.stats` dictionary (lines 95-104). -/
structure BridgeStats where
  commands_relayed : Nat
  telemetry_relayed : Nat
  video_packets_relayed : Nat
  rtp_packets_relayed : Nat
  last_command_time : Option Nat
  last_telemetry_time : Option Nat
  last_video_time : Option Nat
deriving DecidableEq, Repr

/-- A fresh `CommunicationBridge.stats` record. -/
def initBridgeStats : BridgeStats :=
  { commands_relayed := 0
    telemetry_relayed := 0
    video_packets_relayed := 0
    rtp_packets_relayed := 0
    last_command_time := none
    last_telemetry_time := none
    last_video_time := none }

/-- One iteration of `CommunicationBridge.relay_commands` (lines 185-209)
after `(data, addr)` is received from source address `src`: if `data` is
nonempty, forward it unchanged to `(drone_ip, DRONE_COMMAND_PORT)` and update
the statistics. The loop performs no check of `src` against any allow list.
`sendOk` false models `sendto` raising (the `except` branch only logs). -/
def relay_commands_step (droneIp src : String) (data : List Nat) (now : Nat)
    (sendOk : Bool) (st : BridgeStats) : BridgeStats × List Dgram :=
  if data = [] then (st, [])
  else if sendOk then
    ({st with
        commands_relayed := st.commands_relayed + 1
        last_command_time := some now},
     [⟨data, droneIp, BRIDGE_DRONE_COMMAND_PORT⟩])
  else (st, [])

/-- One iteration of `CommunicationBridge.relay_video` (lines 242-265, the
legacy video channel) after `data` is received: forward it unchanged to
`(control_station_ip, video_port)` and update the statistics. -/
def relay_video_step (controlIp : String) (videoPort : Nat) (data : List Nat)
    (now : Nat) (sendOk : Bool) (st : BridgeStats) : BridgeStats × List Dgram :=
  if data = [] then (st, [])
  else if sendOk then
    ({st with
        video_packets_relayed := st.video_packets_relayed + 1
        last_video_time := some now},
     [⟨data, controlIp, videoPort⟩])
  else (st, [])

/-! ## Theorems -/

/-! ### Demultiplexer lemmas -/

/-- An exhausted stream leaves the loop state untouched. -/
theorem receiveVideoLoop_nil (F fuel : Nat) (buf : List Nat) :
    receiveVideoLoop F fuel [] buf = ⟨[], buf, []⟩ := by
  cases fuel <;> simp [receiveVideoLoop]

/-- When the appended buffer stays within one frame, the buffer retained by
`processChunk` is strictly shorter than a frame. -/
theorem processChunk_snd_lt (F : Nat) (hF : 0 < F) (buf data : List Nat)
    (h : (buf ++ data).length ≤ F) :
    (processChunk F buf data).2.length < F := by
  simp only [processChunk]
  split_ifs with h2
  · simpa using h2
  · simp only [List.length_drop]
    omega

/-- Any fuel at least the stream length computes the same result as fuel
exactly the stream length: every iteration on a nonempty stream consumes at
least one byte, because a buffer shorter than a frame leaves a positive
`needed` count. -/
theorem receiveVideoLoop_fuel (F : Nat) (hF : 0 < F) :
    ∀ fuel s buf, buf.length < F → s.length ≤ fuel →
      receiveVideoLoop F fuel s buf = receiveVideoLoop F s.length s buf := by
  intro fuel
  induction fuel using Nat.strong_induction_on with
  | h fuel ih =>
    intro s buf hbuf hle
    by_cases hs : s = []
    · subst hs
      simp [receiveVideoLoop_nil]
    · have hpos : 0 < s.length := List.length_pos.mpr hs
      obtain ⟨k, hk⟩ : ∃ k, fuel = k + 1 := ⟨fuel - 1, by omega⟩
      obtain ⟨m, hm⟩ : ∃ m, s.length = m + 1 := ⟨s.length - 1, by omega⟩
      subst hk
      rw [hm]
      simp only [receiveVideoLoop, if_neg hs]
      have hb2 : (buf ++ s.take (F - buf.length)).length ≤ F := by
        simp only [List.length_append, List.length_take]
        omega
      have hstep := processChunk_snd_lt F hF buf (s.take (F - buf.length)) hb2
      have hrest : (s.drop (F - buf.length)).length ≤ m := by
        simp only [List.length_drop]
        omega
      rw [ih k (by omega) _ _ hstep (by omega),
          ih m (by omega) _ _ hstep hrest]

/-- Unfolding of the receive loop on an empty buffer when at least one full
frame of bytes is available: the first `F` bytes come off as a frame and the
loop continues on the rest with an empty buffer. -/
theorem receiveVideoLoop_full (F : Nat) (hF : 0 < F) (s : List Nat)
    (hs : F ≤ s.length) :
    receiveVideoLoop F s.length s [] =
      ⟨s.take F :: (receiveVideoLoop F (s.drop F).length (s.drop F) []).frames,
       (receiveVideoLoop F (s.drop F).length (s.drop F) []).buf,
       F :: (receiveVideoLoop F (s.drop F).length (s.drop F) []).bufLens⟩ := by
  have hne : s ≠ [] := by
    intro h
    subst h
    simp at hs
    omega
  have hpos : 0 < s.length := List.length_pos.mpr hne
  obtain ⟨m, hm⟩ : ∃ m, s.length = m + 1 := ⟨s.length - 1, by omega⟩
  have htake : (s.take F).length = F := by
    simp only [List.length_take]
    omega
  have hstep : processChunk F [] (s.take F) = ([s.take F], []) := by
    unfold processChunk
    simp only [List.nil_append]
    rw [if_neg (by omega)]
    rw [List.take_of_length_le (by omega), List.drop_eq_nil_of_le (by omega)]
  conv_lhs => rw [hm]
  simp only [receiveVideoLoop, if_neg hne]
  simp only [List.length_nil, Nat.sub_zero, List.nil_append, hstep]
  have hrest : (s.drop F).length ≤ m := by
    simp only [List.length_drop]
    omega
  rw [receiveVideoLoop_fuel F hF m (s.drop F) [] (by simpa using hF) hrest]
  simp [htake]

/-- Unfolding of the receive loop on an empty buffer when fewer bytes than a
frame are available: everything is buffered and no frame is published. -/
theorem receiveVideoLoop_small (F : Nat) (s : List Nat) (hne : s ≠ [])
    (hs : s.length < F) :
    receiveVideoLoop F s.length s [] = ⟨[], s, [s.length]⟩ := by
  have hpos : 0 < s.length := List.length_pos.mpr hne
  obtain ⟨m, hm⟩ : ∃ m, s.length = m + 1 := ⟨s.length - 1, by omega⟩
  have hstep : processChunk F [] (s.take F) = ([], s) := by
    simp only [processChunk, List.nil_append]
    rw [List.take_of_length_le (by omega)]
    rw [if_pos hs]
  conv_lhs => rw [hm]
  simp only [receiveVideoLoop, if_neg hne]
  simp only [List.length_nil, Nat.sub_zero, List.nil_append, hstep]
  rw [List.drop_eq_nil_of_le (by omega)]
  rw [receiveVideoLoop_nil]
  rw [List.take_of_length_le (by omega)]

/-- Loop invariant of the bounded-read receive loop: starting from a buffer
shorter than one frame, every published frame is exactly `F` bytes, the
buffer observed after each append never exceeds `F` bytes, and the final
buffer is again shorter than one frame. -/
theorem receiveVideoLoop_invariant (F : Nat) (hF : 0 < F) :
    ∀ fuel s buf, buf.length < F →
      (∀ f ∈ (receiveVideoLoop F fuel s buf).frames, f.length = F) ∧
      (∀ b ∈ (receiveVideoLoop F fuel s buf).bufLens, b ≤ F) ∧
      (receiveVideoLoop F fuel s buf).buf.length < F := by
  intro fuel
  induction fuel with
  | zero =>
    intro s buf hbuf
    simp only [receiveVideoLoop]
    exact ⟨by simp, by simp, hbuf⟩
  | succ n ih =>
    intro s buf hbuf
    by_cases hs : s = []
    · subst hs
      simp only [receiveVideoLoop, if_pos rfl]
      exact ⟨by simp, by simp, hbuf⟩
    · simp only [receiveVideoLoop, if_neg hs]
      have hb2 : (buf ++ s.take (F - buf.length)).length ≤ F := by
        simp only [List.length_append, List.length_take]
        omega
      have hstep := processChunk_snd_lt F hF buf (s.take (F - buf.length)) hb2
      obtain ⟨ih1, ih2, ih3⟩ := ih (s.drop (F - buf.length)) _ hstep
      refine ⟨?_, ?_, ih3⟩
      · intro f hf
        simp only [List.mem_append] at hf
        rcases hf with hf | hf
        · simp only [processChunk] at hf
          split_ifs at hf with h2
          · simp at hf
          · simp only [List.mem_singleton] at hf
            subst hf
            simp only [List.length_take]
            omega
        · exact ih1 f hf
      · intro b hb
        simp only [List.mem_cons] at hb
        rcases hb with hb | hb
        · subst hb
          exact hb2
        · exact ih2 b hb

/-! ### Claim theorems -/

/-- C1: Fixed-frame stream demultiplexer. For a target frame size `F`,
feeding exactly `3*F` bytes through the loop yields exactly the three
consecutive `F`-byte frames with an empty buffer left; feeding `F-1` bytes
to an empty buffer yields no frames and leaves exactly those `F-1` bytes
buffered; and each incoming chunk is appended to the buffer, with exactly
one frame (the first `F` bytes) sliced off the front whenever the buffer
length reaches or exceeds `F`, the remainder retained. -/
theorem C1_fixed_frame_demux (F : Nat) (hF : 0 < F) :
    (∀ s : List Nat, s.length = 3 * F →
      (receiveVideoLoop F s.length s []).frames =
        [s.take F, (s.drop F).take F, (s.drop (2 * F)).take F] ∧
      (receiveVideoLoop F s.length s []).buf = [] ∧
      (s.take F).length = F ∧ ((s.drop F).take F).length = F ∧
      ((s.drop (2 * F)).take F).length = F) ∧
    (∀ s : List Nat, s.length = F - 1 →
      (receiveVideoLoop F s.length s []).frames = [] ∧
      (receiveVideoLoop F s.length s []).buf = s) ∧
    (∀ buf data : List Nat, F ≤ (buf ++ data).length →
      processChunk F buf data = ([(buf ++ data).take F], (buf ++ data).drop F)) ∧
    (∀ buf data : List Nat, (buf ++ data).length < F →
      processChunk F buf data = ([], buf ++ data)) := by
  refine ⟨?_, ?_, ?_, ?_⟩
  · intro s hlen
    have h1 := receiveVideoLoop_full F hF s (by omega)
    have hl1 : (s.drop F).length = 2 * F := by
      simp only [List.length_drop]
      omega
    have h2 := receiveVideoLoop_full F hF (s.drop F) (by omega)
    have hl2 : ((s.drop F).drop F).length = F := by
      simp only [List.length_drop]
      omega
    have h3 := receiveVideoLoop_full F hF ((s.drop F).drop F) (by omega)
    have hl3 : ((s.drop F).drop F).drop F = [] := by
      apply List.eq_nil_of_length_eq_zero
      simp only [List.length_drop]
      omega
    rw [h1, h2, h3, hl3, receiveVideoLoop_nil]
    have hdd : (s.drop F).drop F = s.drop (2 * F) := by
      rw [List.drop_drop]
      congr 1
      omega
    refine ⟨by rw [hdd], rfl, ?_, ?_, ?_⟩ <;>
      simp only [List.length_take, List.length_drop] <;> omega
  · intro s hlen
    by_cases hs : s = []
    · subst hs
      simp [receiveVideoLoop_nil]
    · have hsmall := receiveVideoLoop_small F s hs
        (by have : 0 < s.length := List.length_pos.mpr hs; omega)
      rw [hsmall]
      exact ⟨rfl, rfl⟩
  · intro buf data h
    simp only [processChunk]
    rw [if_neg (by omega)]
  · intro buf data h
    simp only [processChunk]
    rw [if_pos h]

/-- Witness for C1 at frame size 2: six bytes give the three 2-byte frames
with nothing buffered, one byte gives no frame and stays buffered, and one
`processChunk` pass slices exactly one frame when the buffer fills. -/
theorem C1_fixed_frame_demux_witness :
    (receiveVideoLoop 2 [0, 1, 2, 3, 4, 5].length [0, 1, 2, 3, 4, 5] []).frames =
      [[0, 1], [2, 3], [4, 5]] ∧
    (receiveVideoLoop 2 [0, 1, 2, 3, 4, 5].length [0, 1, 2, 3, 4, 5] []).buf = [] ∧
    (receiveVideoLoop 2 [9].length [9] []).frames = [] ∧
    (receiveVideoLoop 2 [9].length [9] []).buf = [9] ∧
    processChunk 2 [0] [1, 2] = ([[0, 1]], [2]) ∧
    processChunk 2 [] [0] = ([], [0]) := by
  obtain ⟨h3F, hFm1, hstep, hsmall⟩ := C1_fixed_frame_demux 2 (by decide)
  obtain ⟨hf, hb, _, _, _⟩ := h3F [0, 1, 2, 3, 4, 5] (by decide)
  obtain ⟨hf1, hb1⟩ := hFm1 [9] (by decide)
  refine ⟨by rw [hf]; decide, hb, hf1, hb1, ?_, ?_⟩
  · rw [hstep [0] [1, 2] (by decide)]
    decide
  · rw [hsmall [] [0] (by decide)]
    decide

/-- C7: Video frame completeness invariant of the streamed-raw ingest loop:
with the frame size fixed by the code to `640*480*3` bytes, every published
frame is exactly `frame_size` bytes long, and since each read requests only
the bytes still needed for the current frame, the accumulation buffer after
every append holds at most `frame_size` bytes. -/
theorem C7_frame_completeness (s : List Nat) :
    (receiveVideoLoop frame_size s.length s []).frames.all
      (fun f => f.length == frame_size) = true ∧
    (receiveVideoLoop frame_size s.length s []).bufLens.all
      (fun b => decide (b ≤ frame_size)) = true ∧
    frame_size = frame_width * frame_height * 3 ∧ frame_size = 921600 := by
  have hF : 0 < frame_size := by norm_num [frame_size, frame_width, frame_height]
  obtain ⟨h1, h2, h3⟩ :=
    receiveVideoLoop_invariant frame_size hF s.length s [] (by simpa using hF)
  refine ⟨?_, ?_, rfl, by norm_num [frame_size, frame_width, frame_height]⟩
  · rw [List.all_eq_true]
    intro f hf
    simpa using h1 f hf
  · rw [List.all_eq_true]
    intro b hb
    simpa using h2 b hb

/-! ### Legacy codec lemmas -/

/-- The header the simulator builds for frame 42 at timestamp 12345 is the
8-byte ASCII string `42:12345`. -/
theorem headerBytes_42_12345 :
    headerBytes 42 12345 = [52, 50, 58, 49, 50, 51, 52, 53] := by
  decide

/-- Decoding a datagram whose length field is 8 and whose header is
`42:12345` yields frame number 42, timestamp 12345 and the trailing image
bytes. -/
theorem decodeLegacyVideo_header8 (img : List Nat) :
    decodeLegacyVideo (0 :: 8 :: ([52, 50, 58, 49, 50, 51, 52, 53] ++ img)) =
      some (42, 12345, img) := by
  have h1 : ¬ (([52, 50, 58, 49, 50, 51, 52, 53] ++ img).length < 8) := by
    simp [List.length_append]
  have h2 : ([52, 50, 58, 49, 50, 51, 52, 53] ++ img).take 8 =
      [52, 50, 58, 49, 50, 51, 52, 53] := by
    simp
  have h3 : ([52, 50, 58, 49, 50, 51, 52, 53] ++ img).drop 8 = img := by
    simp
  simp only [decodeLegacyVideo, Nat.zero_mul, Nat.zero_add, h2, h3, if_neg h1]
  rfl

/-- The simulator packet for frame 42 at timestamp 12345 carries the length
field 8 (not 7) followed by the 8 header bytes and the image. -/
theorem videoPacket_42_12345 (img : List Nat) :
    videoPacket 42 12345 img =
      0 :: 8 :: ([52, 50, 58, 49, 50, 51, 52, 53] ++ img) := by
  simp only [videoPacket, headerBytes_42_12345]
  rfl

/-! ### Remaining claim theorems -/

/-- C5 counterexample: with length-prefix `L = 7` and the 8 header bytes
`"42:12345"` followed by image byte 99, the decoder takes only the first 7
bytes `"42:1234"` as the header, so it yields timestamp 1234 and an image
beginning with the leftover digit byte 53 — not `(42, 12345, [99])` as the
claim states. The header `"42:12345"` is 8 bytes long, so `L = 7` is
inconsistent with it. -/
theorem C5_counterexample :
    decodeLegacyVideo ([0, 7] ++ utf8Bytes "42:12345" ++ [99]) =
      some (42, 1234, [53, 99]) ∧
    decodeLegacyVideo ([0, 7] ++ utf8Bytes "42:12345" ++ [99]) ≠
      some (42, 12345, [99]) := by
  decide

/-- C5 (amended): legacy per-datagram video decode. The encoder prefixes the
8-byte header `"42:12345"` with its true length `L = 8`, and decoding the
encoded packet yields `frameNumber = 42`, `timestamp = 12345` and exactly the
trailing image bytes; any datagram whose remainder is shorter than its
declared header length `L` — and any datagram shorter than the 2-byte length
field itself — is dropped (`none`) without raising. -/
theorem C5_legacy_decode :
    (∀ img : List Nat,
      videoPacket 42 12345 img = 0 :: 8 :: (utf8Bytes "42:12345" ++ img) ∧
      decodeLegacyVideo (videoPacket 42 12345 img) = some (42, 12345, img)) ∧
    (∀ (b0 b1 : Nat) (rest : List Nat), rest.length < b0 * 256 + b1 →
      decodeLegacyVideo (b0 :: b1 :: rest) = none) ∧
    (∀ d : List Nat, d.length < 2 → decodeLegacyVideo d = none) := by
  have hdr : utf8Bytes "42:12345" = [52, 50, 58, 49, 50, 51, 52, 53] := by
    decide
  refine ⟨?_, ?_, ?_⟩
  · intro img
    rw [hdr]
    exact ⟨videoPacket_42_12345 img,
      by rw [videoPacket_42_12345, decodeLegacyVideo_header8]⟩
  · intro b0 b1 rest h
    simp only [decodeLegacyVideo, if_pos h]
  · intro d h
    match d, h with
    | [], _ => rfl
    | [b], _ => rfl

/-- Witness for C5 at image bytes `[99]`: the encoded packet decodes back,
and concrete short datagrams are dropped. -/
theorem C5_legacy_decode_witness :
    decodeLegacyVideo (videoPacket 42 12345 [99]) = some (42, 12345, [99]) ∧
    decodeLegacyVideo [0, 9, 52, 50] = none ∧
    decodeLegacyVideo [7] = none := by
  obtain ⟨hok, hshort, htiny⟩ := C5_legacy_decode
  exact ⟨(hok [99]).2, hshort 0 9 [52, 50] (by decide), htiny [7] (by decide)⟩

/-- C2 counterexample: the bridge command relay
(`CommunicationBridge.relay_commands`) performs no source-address check: a
command datagram from `1.2.3.4` — an address absent from
`ALLOWED_BASE_STATIONS` — is forwarded to the drone-facing destination and
the forwarded count increments, contradicting the claim that such datagrams
are never forwarded. -/
theorem C2_counterexample :
    ¬ ("1.2.3.4" ∈ RelayConfig.ALLOWED_BASE_STATIONS) ∧
    (relay_commands_step "192.168.10.1" "1.2.3.4"
        [116, 97, 107, 101, 111, 102, 102] 0 true initBridgeStats).2 =
      [⟨[116, 97, 107, 101, 111, 102, 102], "192.168.10.1", 8889⟩] ∧
    (relay_commands_step "192.168.10.1" "1.2.3.4"
        [116, 97, 107, 101, 111, 102, 102] 0 true initBridgeStats).1.commands_relayed =
      initBridgeStats.commands_relayed + 1 := by
  refine ⟨by decide, rfl, rfl⟩

/-- C2 (amended): relay authorization. In `DroneRelay`, a command datagram
whose source is absent from `ALLOWED_BASE_STATIONS` is dropped: nothing is
forwarded and the entire statistics record — every counter and timestamp —
is unchanged, for any payload. In `CommunicationBridge.relay_commands`,
however, there is no allow-list check: every nonempty datagram is forwarded
to the drone regardless of its source address. -/
theorem C2_relay_authorization :
    (∀ (src : String) (data : List Nat) (now : Nat) (sendOk : Bool)
        (s : RelayStatistics),
      src ∉ RelayConfig.ALLOWED_BASE_STATIONS →
        commandRelayStep src data now sendOk s = (s, [])) ∧
    (∀ (droneIp src : String) (data : List Nat) (now : Nat) (st : BridgeStats),
      data ≠ [] →
        relay_commands_step droneIp src data now true st =
          ({st with
              commands_relayed := st.commands_relayed + 1
              last_command_time := some now},
           [⟨data, droneIp, BRIDGE_DRONE_COMMAND_PORT⟩])) := by
  constructor
  · intro src data now sendOk s h
    simp [commandRelayStep, h]
  · intro droneIp src data now st h
    simp [relay_commands_step, h]

/-- Witness for C2: a concrete unauthorized source leaves the `DroneRelay`
statistics untouched and forwards nothing, while the bridge forwards the
same datagram. -/
theorem C2_relay_authorization_witness :
    commandRelayStep "1.2.3.4" [1, 2] 7 true initStatistics =
      (initStatistics, []) ∧
    relay_commands_step "10.0.0.9" "1.2.3.4" [1, 2] 7 true initBridgeStats =
      ({initBridgeStats with commands_relayed := 1, last_command_time := some 7},
       [⟨[1, 2], "10.0.0.9", BRIDGE_DRONE_COMMAND_PORT⟩]) := by
  obtain ⟨h1, h2⟩ := C2_relay_authorization
  exact ⟨h1 "1.2.3.4" [1, 2] 7 true initStatistics (by decide),
         h2 "10.0.0.9" "1.2.3.4" [1, 2] 7 initBridgeStats (by decide)⟩

/-- C3 counterexample: a successful authorized command forward updates
exactly the forwarded count and the last-activity timestamp; the resulting
statistics record equals the input with only those two fields changed, so in
particular no bytes-forwarded counter is incremented — the only byte counter
in the record, `video_bytes_forwarded`, stays at its old value — contrary to
the claim that the same step increments a bytes-forwarded counter. -/
theorem C3_counterexample :
    ("10.0.0.3" ∈ RelayConfig.ALLOWED_BASE_STATIONS) ∧
    (commandRelayStep "10.0.0.3" [1, 2, 3] 5 true initStatistics).2 =
      [⟨[1, 2, 3], RelayConfig.DRONE_IP, RelayConfig.DRONE_COMMAND_PORT⟩] ∧
    (commandRelayStep "10.0.0.3" [1, 2, 3] 5 true initStatistics).1 =
      {initStatistics with commands_forwarded := 1, last_command_time := some 5} ∧
    (commandRelayStep "10.0.0.3" [1, 2, 3] 5 true initStatistics).1.video_bytes_forwarded =
      initStatistics.video_bytes_forwarded := by
  refine ⟨by decide, rfl, rfl, rfl⟩

/-- C3 (amended): relay forwarding step postcondition. Every authorized
datagram on the command, telemetry, or legacy-video channel is forwarded
byte-identically as a single datagram to the fixed destination for that
channel, and the same step increments that channel's forwarded-count counter
and updates its last-activity timestamp; no bytes-forwarded counter is
incremented (the `video_bytes_forwarded` field is never touched by a
forwarding step). -/
theorem C3_forwarding_postcondition :
    (∀ (src : String) (data : List Nat) (now : Nat) (s : RelayStatistics),
      src ∈ RelayConfig.ALLOWED_BASE_STATIONS →
        commandRelayStep src data now true s =
          ({s with
              commands_forwarded := s.commands_forwarded + 1
              last_command_time := some now},
           [⟨data, RelayConfig.DRONE_IP, RelayConfig.DRONE_COMMAND_PORT⟩])) ∧
    (∀ (data : List Nat) (now : Nat) (s : RelayStatistics),
      telemetryRelayStep data now true s =
        ({s with
            telemetry_forwarded := s.telemetry_forwarded + 1
            last_telemetry_time := some now},
         [⟨data, RelayConfig.BASE_STATION_IP,
           RelayConfig.BASE_STATION_TELEMETRY_PORT⟩])) ∧
    (∀ (controlIp : String) (videoPort : Nat) (data : List Nat) (now : Nat)
        (st : BridgeStats),
      data ≠ [] →
        relay_video_step controlIp videoPort data now true st =
          ({st with
              video_packets_relayed := st.video_packets_relayed + 1
              last_video_time := some now},
           [⟨data, controlIp, videoPort⟩])) ∧
    (∀ (src : String) (data : List Nat) (now : Nat) (s : RelayStatistics),
      (commandRelayStep src data now true s).1.video_bytes_forwarded =
        s.video_bytes_forwarded) := by
  refine ⟨?_, ?_, ?_, ?_⟩
  · intro src data now s h
    simp [commandRelayStep, h]
  · intro data now s
    simp [telemetryRelayStep]
  · intro controlIp videoPort data now st h
    simp [relay_video_step, h]
  · intro src data now s
    simp only [commandRelayStep]
    split_ifs <;> rfl

/-- Witness for C3 on concrete authorized datagrams for the command and
legacy-video channels. -/
theorem C3_forwarding_postcondition_witness :
    commandRelayStep "10.0.0.5" [7] 3 true initStatistics =
      ({initStatistics with commands_forwarded := 1, last_command_time := some 3},
       [⟨[7], RelayConfig.DRONE_IP, RelayConfig.DRONE_COMMAND_PORT⟩]) ∧
    relay_video_step "10.0.0.3" 8890 [5] 4 true initBridgeStats =
      ({initBridgeStats with video_packets_relayed := 1, last_video_time := some 4},
       [⟨[5], "10.0.0.3", 8890⟩]) := by
  obtain ⟨h1, h2, h3, h4⟩ := C3_forwarding_postcondition
  exact ⟨h1 "10.0.0.5" [7] 3 initStatistics (by decide),
         h3 "10.0.0.3" 8890 [5] 4 initBridgeStats (by decide)⟩

/-- C4 counterexample: when the telemetry socket bind fails during
`DroneComm.connect` on a fresh session, the attempt returns failure but the
command socket opened earlier in the same attempt — and the just-created
telemetry socket — are still open when the attempt returns: nothing is
rolled back. -/
theorem C4_counterexample :
    (connect ConnectOutcome.telemetryBindFail initDroneComm).2.1 = false ∧
    (connect ConnectOutcome.telemetryBindFail initDroneComm).1.command_socket =
      some () ∧
    (connect ConnectOutcome.telemetryBindFail initDroneComm).1.telemetry_socket =
      some () := by
  exact ⟨rfl, rfl, rfl⟩

/-- C4 (amended): when any individual setup step of a connect attempt fails,
exactly one failure is reported to the caller (the attempt returns `false`
and emits nothing), but the attempt performs no rollback: every socket and
process handle opened before the failing step is left open in the session
state rather than being closed. -/
theorem C4_connect_failure_no_rollback (st : DroneCommState) :
    connect ConnectOutcome.cmdSocketFail st = (st, false, []) ∧
    connect ConnectOutcome.telemetrySocketFail st =
      ({st with command_socket := some ()}, false, []) ∧
    connect ConnectOutcome.telemetryBindFail st =
      ({st with command_socket := some (), telemetry_socket := some ()},
       false, []) ∧
    connect ConnectOutcome.ffmpegSetupFail st =
      ({st with command_socket := some (), telemetry_socket := some ()},
       false, []) ∧
    connect ConnectOutcome.sdkModeFail st =
      ({st with
          command_socket := some ()
          telemetry_socket := some ()
          ffmpeg_process := some ()}, false, []) := by
  exact ⟨rfl, rfl, rfl, rfl, rfl⟩

/-- C6 counterexample: with the session marked connected but the command
socket absent, `send_command` emits nothing and returns Python `None` — a
value that is neither `True` nor `False` — so it does not return a boolean
as the claim states. -/
theorem C6_counterexample :
    (send_command {initDroneComm with connected := true} true "land").1 = none ∧
    (send_command {initDroneComm with connected := true} true "land").2 = [] := by
  exact ⟨rfl, rfl⟩

/-- C6 (amended): command send gating. `send_command` returns `False`
(emitting nothing) when the session is not connected and the command is not
the mode-entry token `"command"`; otherwise, if the command socket exists,
a successful send emits exactly one datagram whose bytes are the UTF-8
encoding of the command string, addressed to the configured peer IP and
command port, and returns `True`, while a failing send returns `False`; and
if the command socket is absent the function emits nothing and returns
`None` rather than a boolean. -/
theorem C6_send_command :
    (∀ (st : DroneCommState) (sendOk : Bool) (cmd : String),
      st.connected = false → cmd ≠ "command" →
        send_command st sendOk cmd = (some false, [])) ∧
    (∀ (st : DroneCommState) (cmd : String) (u : Unit),
      st.command_socket = some u → (st.connected = true ∨ cmd = "command") →
        send_command st true cmd =
          (some true, [⟨utf8Bytes cmd, st.ip, st.command_port⟩])) ∧
    (∀ (st : DroneCommState) (cmd : String) (u : Unit),
      st.command_socket = some u → (st.connected = true ∨ cmd = "command") →
        send_command st false cmd = (some false, [])) ∧
    (∀ (st : DroneCommState) (sendOk : Bool) (cmd : String),
      st.command_socket = none → (st.connected = true ∨ cmd = "command") →
        send_command st sendOk cmd = (none, [])) := by
  have hcond : ∀ (st : DroneCommState) (cmd : String),
      st.connected = true ∨ cmd = "command" →
      ¬ (st.connected = false ∧ cmd ≠ "command") := by
    intro st cmd h
    rcases h with h | h <;> simp [h]
  refine ⟨?_, ?_, ?_, ?_⟩
  · intro st sendOk cmd h1 h2
    simp [send_command, h1, h2]
  · intro st cmd u hsock hgate
    simp only [send_command]
    rw [if_neg (hcond st cmd hgate), hsock]
    rfl
  · intro st cmd u hsock hgate
    simp only [send_command]
    rw [if_neg (hcond st cmd hgate), hsock]
    rfl
  · intro st sendOk cmd hsock hgate
    simp only [send_command]
    rw [if_neg (hcond st cmd hgate), hsock]

/-- Witness for C6 on concrete session states: gated send, successful send,
failed send, and the socketless `None` path. -/
theorem C6_send_command_witness :
    send_command initDroneComm true "land" = (some false, []) ∧
    send_command
        {initDroneComm with connected := true, command_socket := some ()}
        true "land" =
      (some true,
       [⟨utf8Bytes "land", NetworkConfig.DRONE_IP, NetworkConfig.COMMAND_PORT⟩]) ∧
    send_command
        {initDroneComm with connected := true, command_socket := some ()}
        false "land" = (some false, []) ∧
    send_command {initDroneComm with connected := true} true "land" =
      (none, []) := by
  obtain ⟨h1, h2, h3, h4⟩ := C6_send_command
  exact ⟨h1 initDroneComm true "land" rfl (by decide),
         h2 _ "land" () rfl (Or.inl rfl),
         h3 _ "land" () rfl (Or.inl rfl),
         h4 _ true "land" rfl (Or.inl rfl)⟩

/-- C10: invoking `send_command` while the command socket does not exist —
for instance `send_command("command")` before any connect, or any send after
the socket was cleared while `connected` remained true — emits no datagram
and returns Python `None`, a value that is neither `True` nor `False`. -/
theorem C10_send_command_none (st : DroneCommState) (sendOk : Bool)
    (cmd : String) (hsock : st.command_socket = none)
    (hgate : st.connected = true ∨ cmd = "command") :
    send_command st sendOk cmd = (none, []) := by
  have hcond : ¬ (st.connected = false ∧ cmd ≠ "command") := by
    rcases hgate with h | h <;> simp [h]
  simp only [send_command]
  rw [if_neg hcond, hsock]

/-- Witness for C10: the mode-entry command before any connect, and a send
on a connected-flagged state without a socket, both return `None`. -/
theorem C10_send_command_none_witness :
    send_command initDroneComm true "command" = (none, []) ∧
    send_command {initDroneComm with connected := true} false "takeoff" =
      (none, []) := by
  exact ⟨C10_send_command_none initDroneComm true "command" rfl (Or.inr rfl),
         C10_send_command_none _ false "takeoff" rfl (Or.inl rfl)⟩

/-- Counters only ever grow across two composed bounds. -/
theorem countersLE_trans {a b c : RelayStatistics}
    (h1 : countersLE a b) (h2 : countersLE b c) : countersLE a c := by
  obtain ⟨x1, x2, x3, x4⟩ := h1
  obtain ⟨y1, y2, y3, y4⟩ := h2
  exact ⟨x1.trans y1, x2.trans y2, x3.trans y3, x4.trans y4⟩

/-- The counter order is reflexive. -/
theorem countersLE_refl (a : RelayStatistics) : countersLE a a :=
  ⟨Nat.le_refl _, Nat.le_refl _, Nat.le_refl _, Nat.le_refl _⟩

/-- Every single `DroneRelay` operation leaves each counter at least as
large as before. -/
theorem applyEvent_counters_mono (s : RelayStatistics) (e : RelayEvent) :
    countersLE s (applyEvent s e) := by
  cases e <;>
    simp only [applyEvent, commandRelayStep, telemetryRelayStep, countersLE] <;>
    (try split_ifs) <;>
    simp

/-- C8: RelayStatistics monotonicity. No `DroneRelay` operation — a command
or telemetry forwarding step (successful or erroring), a video relay error,
a heartbeat tick, a statistics report, system start, or shutdown — ever
decreases any of the four statistics counters, and hence the counters are
monotonically non-decreasing along every sequence of operations. -/
theorem C8_statistics_monotone :
    (∀ (s : RelayStatistics) (e : RelayEvent), countersLE s (applyEvent s e)) ∧
    (∀ (s : RelayStatistics) (es : List RelayEvent),
      countersLE s (applyEvents s es)) := by
  refine ⟨applyEvent_counters_mono, ?_⟩
  intro s es
  induction es generalizing s with
  | nil => exact countersLE_refl s
  | cons e es ih =>
    exact countersLE_trans (applyEvent_counters_mono s e) (ih (applyEvent s e))

/-- C9: Shutdown idempotence. `disconnect` is modelled as total — every
exception a cleanup step can raise is absorbed inside it, for any FFmpeg
termination outcome and any `streamoff` send outcome. Running it twice never
changes the result of the first run and the second run emits nothing; after
the first (hence after the second) call both session sockets are closed and
cleared, the running flag that stops all worker loops is false, the session
is not connected, and the FFmpeg handle is cleared. The final state does not
depend on how the termination or send steps fared, so every cleanup step
takes effect even when an earlier one fails. -/
theorem C9_disconnect_idempotent (st : DroneCommState) (t1 t2 : TermOutcome)
    (ok1 ok2 : Bool) :
    (disconnect t2 ok2 (disconnect t1 ok1 st).1).1 = (disconnect t1 ok1 st).1 ∧
    (disconnect t2 ok2 (disconnect t1 ok1 st).1).2 = [] ∧
    (disconnect t1 ok1 st).1.command_socket = none ∧
    (disconnect t1 ok1 st).1.telemetry_socket = none ∧
    (disconnect t1 ok1 st).1.running = false ∧
    (disconnect t1 ok1 st).1.connected = false ∧
    (disconnect t1 ok1 st).1.ffmpeg_process = none ∧
    (disconnect t1 ok1 st).1 = (disconnect TermOutcome.ok true st).1 := by
  simp [disconnect]

end Swarm
